import Mathlib

/-!
Shallow embedding of the NFT verifier core (`nft_verifier.py`) and the
verification of its specification.

Python dictionaries are embedded as structures whose fields record exactly the
keys the source code reads; a key that may be absent is an `Option`.  Python
exceptions that escape a function are embedded as `Except.error`; a function
that cannot raise returns the result directly.  Machine integers are `Int`
(Python integers are unbounded).  Wall-clock time (`datetime.now()`) is passed
in explicitly as a parameter.
-/

namespace NFTV

/-! ## Python string primitives -/

/-- Python `pat in s` substring test, over lists of characters. -/
def hasSub (pat : List Char) : List Char → Bool
  | [] => pat.isEmpty
  | c :: xs => pat.isPrefixOf (c :: xs) || hasSub pat xs

/-- Python `pat in s` on strings. -/
def strContains (s pat : String) : Bool :=
  hasSub pat.toList s.toList

/-- ASCII lower-casing of one character, as Python `str.lower` does on ASCII. -/
def pyLowerChar (c : Char) : Char :=
  if 'A' ≤ c ∧ c ≤ 'Z' then Char.ofNat (c.toNat + 32) else c

/-- Python `s.lower()` (the source only lower-cases ASCII type strings). -/
def pyLower (s : String) : String :=
  String.mk (s.toList.map pyLowerChar)

/-- Split a character list at every occurrence of a single separator
character, Python `s.split(sep)` semantics for a one-character separator. -/
def splitOnCharL (sep : Char) : List Char → List (List Char)
  | [] => [[]]
  | c :: xs =>
    if c = sep then [] :: splitOnCharL sep xs
    else
      match splitOnCharL sep xs with
      | [] => [[c]]
      | r :: rs => (c :: r) :: rs

/-- Split a character list at every occurrence of the two-character
separator `"::"`, Python `s.split("::")` semantics (leftmost, non-greedy). -/
def splitCCL : List Char → List (List Char)
  | [] => [[]]
  | [c] => [[c]]
  | c :: d :: xs =>
    if c = ':' ∧ d = ':' then [] :: splitCCL xs
    else
      match splitCCL (d :: xs) with
      | [] => [[c]]
      | r :: rs => (c :: r) :: rs

/-- Python `s.split(sep)` for a one-character separator, on strings. -/
def pySplitChar (s : String) (sep : Char) : List String :=
  (splitOnCharL sep s.toList).map String.mk

/-- Python `s.split("::")` on strings. -/
def pySplitCC (s : String) : List String :=
  (splitCCL s.toList).map String.mk

/-! ## A model of `datetime`

`_verify_collection` calls `datetime.fromisoformat` on a transaction
timestamp and subtracts the result from `datetime.now()`, reading `.days` of
the difference.  A `datetime` value is embedded as its total number of seconds
(an `Int`); `datetime.now()` is passed in as a `PyDateTime` carrying both that
number and its `isoformat()` string (the latter is used by the source as the
`min` key default and as `verification_timestamp`). -/

/-- The ambient value of Python `datetime.now()`: its absolute time in seconds
and its `isoformat()` rendering. -/
structure PyDateTime where
  seconds : Int
  iso : String

/-- Numeric value of a decimal digit character. -/
def digitVal (c : Char) : Nat := c.toNat - 48

/-- Gregorian leap-year test. -/
def isLeap (y : Nat) : Bool :=
  y % 4 == 0 && (y % 100 != 0 || y % 400 == 0)

/-- Number of days in a month of the proleptic Gregorian calendar. -/
def daysInMonth (y m : Nat) : Nat :=
  if m = 1 ∨ m = 3 ∨ m = 5 ∨ m = 7 ∨ m = 8 ∨ m = 10 ∨ m = 12 then 31
  else if m = 2 then (if isLeap y then 29 else 28)
  else 30

/-- Days since the civil epoch 1970-01-01 of a Gregorian date
(the standard era-based computation). -/
def daysFromCivil (y m d : Int) : Int :=
  let yy := if m ≤ 2 then y - 1 else y
  let era := Int.fdiv yy 400
  let yoe := yy - era * 400
  let mp := Int.emod (m + 9) 12
  let doy := (153 * mp + 2) / 5 + d - 1
  let doe := yoe * 365 + yoe / 4 - yoe / 100 + doy
  era * 146097 + doe - 719468

/-- Parse the time-of-day tail of an ISO-8601 string (`HH`, `HH:MM` or
`HH:MM:SS`) into seconds since midnight; `none` on malformed input. -/
def parseHMS : List Char → Option Nat
  | [h1, h2] =>
    if h1.isDigit ∧ h2.isDigit then
      let h := 10 * digitVal h1 + digitVal h2
      if h < 24 then some (h * 3600) else none
    else none
  | [h1, h2, ':', m1, m2] =>
    if h1.isDigit ∧ h2.isDigit ∧ m1.isDigit ∧ m2.isDigit then
      let h := 10 * digitVal h1 + digitVal h2
      let m := 10 * digitVal m1 + digitVal m2
      if h < 24 ∧ m < 60 then some (h * 3600 + m * 60) else none
    else none
  | [h1, h2, ':', m1, m2, ':', s1, s2] =>
    if h1.isDigit ∧ h2.isDigit ∧ m1.isDigit ∧ m2.isDigit ∧ s1.isDigit ∧ s2.isDigit then
      let h := 10 * digitVal h1 + digitVal h2
      let m := 10 * digitVal m1 + digitVal m2
      let s := 10 * digitVal s1 + digitVal s2
      if h < 24 ∧ m < 60 ∧ s < 60 then some (h * 3600 + m * 60 + s) else none
    else none
  | _ => none

/-- Parse the part of an ISO-8601 string after the date: empty means
midnight, otherwise a `T` or space separator followed by a time of day. -/
def parseTimePart : List Char → Option Nat
  | [] => some 0
  | c :: rest => if c = 'T' ∨ c = ' ' then parseHMS rest else none

/-- Model of Python `datetime.fromisoformat` on the forms the upstream API
produces (`YYYY-MM-DD`, optionally followed by a time of day): returns the
absolute time in seconds, or `none` where Python raises `ValueError` on a
malformed string. -/
def fromIso (s : String) : Option Int :=
  match s.toList with
  | y1 :: y2 :: y3 :: y4 :: '-' :: m1 :: m2 :: '-' :: d1 :: d2 :: rest =>
    if y1.isDigit ∧ y2.isDigit ∧ y3.isDigit ∧ y4.isDigit ∧
       m1.isDigit ∧ m2.isDigit ∧ d1.isDigit ∧ d2.isDigit then
      let y := 1000 * digitVal y1 + 100 * digitVal y2 + 10 * digitVal y3 + digitVal y4
      let m := 10 * digitVal m1 + digitVal m2
      let d := 10 * digitVal d1 + digitVal d2
      if 1 ≤ m ∧ m ≤ 12 ∧ 1 ≤ d ∧ d ≤ daysInMonth y m then
        match parseTimePart rest with
        | some secs => some (daysFromCivil (y : Int) (m : Int) (d : Int) * 86400 + (secs : Int))
        | none => none
      else none
    else none
  | _ => none

/-! ## Raw data model

Shapes of the JSON-like values the verifier reads, restricted to the keys the
source code accesses. -/

/-- A transaction event; the source only reads `event.get("type", "")`. -/
structure Event where
  type : Option String

/-- A raw transaction record: keys `type`, `timestamp`, `success`, `events`
as read by the source (each read defensively with `.get`). -/
structure Tx where
  type : Option String
  timestamp : Option String
  success : Option Bool
  events : List Event

/-- The `data` mapping of a raw account resource, restricted to the keys the
source reads: NFT naming fields, `uri`/`description`, and coin `value`/`amount`. -/
structure RawData where
  name : Option String
  token_id : Option String
  id : Option String
  collection_name : Option String
  collection : Option String
  creator_address : Option String
  creator : Option String
  uri : Option String
  description : Option String
  value : Option Int
  amount : Option Int

/-- The empty raw-data mapping, the `resource.get("data", {})` default. -/
def emptyRawData : RawData :=
  { name := none, token_id := none, id := none, collection_name := none,
    collection := none, creator_address := none, creator := none,
    uri := none, description := none, value := none, amount := none }

/-- A raw account resource `{type, data}`. -/
structure Resource where
  type : Option String
  data : Option RawData

/-- Key presence inside a nested `metadata` mapping. -/
structure NftMetaKeys where
  hasUri : Bool
  hasDescription : Bool

/-- The key-presence shape of an NFT mapping as probed by
`_verify_nft_metadata`: whether the `name` and `id` keys exist, and, when the
`metadata` key exists, whether `uri` / `description` exist inside it. -/
structure NftDict where
  hasName : Bool
  hasId : Bool
  metadata : Option NftMetaKeys

/-- A formatted NFT as built by `get_nft_data_by_owner` from a raw resource. -/
structure FormattedNft where
  name : String
  id : String
  collection : String
  creator : String
  metadata : RawData
  resource_type : Option String
  uri : Option String
  description : Option String

/-- A token balance entry `{name, amount, resource_type}`. -/
structure TokenBalance where
  name : String
  amount : Int
  resource_type : String

/-- A collection record, restricted to the keys `_verify_collection` reads. -/
structure CollectionData where
  supply : Option Int
  description : Option String
  uri : Option String

/-- Python truthiness test `not value` for an optional string field:
true when the key is missing or the string is empty. -/
def pyFalsyStr : Option String → Bool
  | none => true
  | some s => s.isEmpty

/-! ## `_extract_token_name` -/

/-- The fall-through part of `_extract_token_name`: split on `"::"`, take the
third segment up to `<` when there are at least three segments, else the last
segment. -/
def extractTokenNameTail (rt : String) : String :=
  let parts := pySplitCC rt
  if 3 ≤ parts.length then (pySplitChar (parts.getD 2 "") '<').headD ""
  else (pySplitCC rt).getLastD rt

/-- `_extract_token_name`: when the type string carries a `<...>` generic
argument containing `"::"`, its last `::`-segment; otherwise the fall-through
rule on the whole string. -/
def extractTokenName (rt : String) : String :=
  if strContains rt "<" && strContains rt ">" then
    let inside := (pySplitChar ((pySplitChar rt '<').getD 1 "") '>').headD ""
    if strContains inside "::" then (pySplitCC inside).getLastD inside
    else extractTokenNameTail rt
  else extractTokenNameTail rt

/-! ## `_parse_account_activities` -/

/-- The nested `token_swaps` counters of the activity summary. -/
structure TokenSwaps where
  swap_count : Nat
  listing_count : Nat

/-- The nested `nft_transfers` counters of the activity summary. -/
structure NftTransfers where
  deposit_count : Nat
  withdraw_count : Nat

/-- A `recent_transactions` preview entry. -/
structure RecentTx where
  type : String
  timestamp : String
  success : Bool

/-- The activity summary built by `_parse_account_activities`. -/
structure Activities where
  nft_staking : Bool
  token_swaps : TokenSwaps
  nft_transfers : NftTransfers
  property_modifications : Nat
  recent_transactions : List RecentTx

/-- The initial all-zero/empty activity summary. -/
def initActivities : Activities :=
  { nft_staking := false,
    token_swaps := { swap_count := 0, listing_count := 0 },
    nft_transfers := { deposit_count := 0, withdraw_count := 0 },
    property_modifications := 0,
    recent_transactions := [] }

/-- Processing of one transaction in the `_parse_account_activities` loop. -/
def activityStep (a : Activities) (tx : Tx) : Activities :=
  let txType := pyLower (tx.type.getD "")
  let events := tx.events
  let evHas := fun (kw : String) =>
    events.any (fun e => strContains (pyLower (e.type.getD "")) kw)
  let a : Activities := if strContains txType "stake" || evHas "stake" then
      { a with nft_staking := true } else a
  let a : Activities := if strContains txType "swap" || evHas "swap" then
      { a with token_swaps :=
          { a.token_swaps with swap_count := a.token_swaps.swap_count + 1 } } else a
  let a : Activities := if strContains txType "list" || evHas "list" then
      { a with token_swaps :=
          { a.token_swaps with listing_count := a.token_swaps.listing_count + 1 } } else a
  let a : Activities := events.foldl
    (fun (a : Activities) (e : Event) =>
      let et := pyLower (e.type.getD "")
      let a : Activities := if strContains et "deposit" then
          { a with nft_transfers :=
              { a.nft_transfers with deposit_count := a.nft_transfers.deposit_count + 1 } }
        else a
      if strContains et "withdraw" then
          { a with nft_transfers :=
              { a.nft_transfers with withdraw_count := a.nft_transfers.withdraw_count + 1 } }
      else a)
    a
  let a : Activities := { a with property_modifications :=
      a.property_modifications +
        (events.filter (fun e => strContains (pyLower (e.type.getD "")) "property")).length }
  if a.recent_transactions.length < 5 then
    { a with recent_transactions := a.recent_transactions ++
        [{ type := tx.type.getD "Unknown",
           timestamp := tx.timestamp.getD "",
           success := tx.success.getD true }] }
  else a

/-- `_parse_account_activities`.  Its annotation takes a list, but its caller
`get_nft_data_by_owner` passes the `Optional` result of the transaction
fetch; iterating over Python `None` raises `TypeError`, embedded here as
`Except.error`. -/
def parseAccountActivities : Option (List Tx) → Except String Activities
  | none => .error "TypeError: NoneType object is not iterable"
  | some txs => .ok (txs.foldl activityStep initActivities)

/-! ## Risk scoring -/

/-- A `{risk_score, risk_factors, is_high_risk}` assessment. -/
structure RiskResult where
  risk_score : Int
  risk_factors : List String
  is_high_risk : Bool

/-- `_verify_nft_metadata`: basic `name`/`id` key presence, and, when a
nested `metadata` mapping exists, presence of `uri` or `description` in it. -/
def verifyNftMetadata (d : NftDict) : Bool :=
  if !(d.hasName && d.hasId) then false
  else
    match d.metadata with
    | some m => if !(m.hasUri || m.hasDescription) then false else true
    | none => true

/-- `_is_nft_transfer`: true exactly when the lower-cased transaction type
contains `"transfer"`; the NFT argument is not consulted. -/
def isNftTransfer (tx : Tx) (nftData : NftDict) : Bool :=
  strContains (pyLower (tx.type.getD "")) "transfer"

/-- `_analyze_nft_risk`: 40 points for incomplete metadata; when the
transaction history is truthy (present and non-empty), `20 * (c - 3)` more
points and the `HIGH_TRANSFER_VELOCITY` tag when the transfer count `c`
exceeds 3; high-risk at 70. -/
def analyzeNftRisk (nftData : NftDict) (txHistory : Option (List Tx)) : RiskResult :=
  let base : Int := if verifyNftMetadata nftData then 0 else 40
  let baseFactors : List String :=
    if verifyNftMetadata nftData then [] else ["INCOMPLETE_METADATA"]
  match txHistory with
  | some (t :: ts) =>
    let tc := (t :: ts).countP (fun tx => isNftTransfer tx nftData)
    if 3 < tc then
      { risk_score := base + 20 * ((tc : Int) - 3),
        risk_factors := baseFactors ++ ["HIGH_TRANSFER_VELOCITY"],
        is_high_risk := decide (70 ≤ base + 20 * ((tc : Int) - 3)) }
    else
      { risk_score := base, risk_factors := baseFactors,
        is_high_risk := decide (70 ≤ base) }
  | _ =>
    { risk_score := base, risk_factors := baseFactors,
      is_high_risk := decide (70 ≤ base) }

/-- The collection assessment returned by `_verify_collection` (with the
extra `is_verified` and timestamp fields the source attaches). -/
structure CollectionRisk where
  risk_score : Int
  risk_factors : List String
  is_high_risk : Bool
  is_verified : Bool
  verification_timestamp : String

/-- Python `min(tx_history, key=lambda x: x.get("timestamp", now.isoformat()))`
on a non-empty history: the first transaction with the smallest timestamp
string (a missing timestamp key defaults to `now.isoformat()` for
comparison). -/
def oldestTx (t : Tx) (ts : List Tx) (now : PyDateTime) : Tx :=
  ts.foldl
    (fun best x =>
      if (x.timestamp.getD now.iso) < (best.timestamp.getD now.iso) then x else best)
    t

/-- The account-age check of `_verify_collection`: when the transaction
history is truthy, take the transaction with the smallest timestamp string,
parse its timestamp, and award 25 points with `NEW_CREATOR_ACCOUNT` when the
account is younger than 30 days.  A missing timestamp on the chosen
transaction raises `TypeError`, a malformed one raises `ValueError`; neither
is caught in the source. -/
def collectionAgeCheck (txs : Option (List Tx)) (now : PyDateTime) :
    Except String (Int × List String) :=
  match txs with
  | some (t :: ts) =>
    match (oldestTx t ts now).timestamp with
    | none => .error "TypeError: fromisoformat argument must be str"
    | some tsStr =>
      match fromIso tsStr with
      | none => .error "ValueError: Invalid isoformat string"
      | some secs =>
        if Int.fdiv (now.seconds - secs) 86400 < 30 then
          .ok (25, ["NEW_CREATOR_ACCOUNT"])
        else .ok (0, [])
  | _ => .ok (0, [])

/-- The supply and metadata checks of `_verify_collection`, continuing from
the age-check score and factors: 50 points and `ZERO_SUPPLY` when
`supply == 0` (a missing key defaults to 0), else 15 points and
`VERY_LOW_SUPPLY` when `supply < 5`; 30 points and `INCOMPLETE_METADATA`
when `description` or `uri` is missing/falsy; high-risk at 60. -/
def collectionChecksTail (c : CollectionData) (now : PyDateTime)
    (p : Int × List String) : CollectionRisk :=
  let supply := c.supply.getD 0
  let s1 := if supply = 0 then p.1 + 50 else if supply < 5 then p.1 + 15 else p.1
  let f1 := if supply = 0 then p.2 ++ ["ZERO_SUPPLY"]
    else if supply < 5 then p.2 ++ ["VERY_LOW_SUPPLY"] else p.2
  let s2 := if pyFalsyStr c.description || pyFalsyStr c.uri then s1 + 30 else s1
  let f2 := if pyFalsyStr c.description || pyFalsyStr c.uri then
      f1 ++ ["INCOMPLETE_METADATA"] else f1
  { risk_score := s2, risk_factors := f2,
    is_high_risk := decide (60 ≤ s2),
    is_verified := !(decide (60 ≤ s2)),
    verification_timestamp := now.iso }

/-- `_verify_collection`: the age check followed by the supply and metadata
checks; an uncaught timestamp-parsing exception propagates as `.error`. -/
def verifyCollection (c : CollectionData) (txs : Option (List Tx))
    (now : PyDateTime) : Except String CollectionRisk :=
  (collectionAgeCheck txs now).map (collectionChecksTail c now)

/-- The aggregate `VerificationResult` of `_verify_nfts`. -/
structure VerificationResult where
  average_risk_score : ℚ
  questionable_nfts : List (NftDict × RiskResult)
  is_verified : Bool
  verification_timestamp : String

/-- `_verify_nfts`: score every NFT, average the scores (0 when there are
none), collect the high-risk ones, verified iff none are high-risk. -/
def verifyNfts (nfts : List NftDict) (txs : Option (List Tx))
    (now : PyDateTime) : VerificationResult :=
  let results := nfts.map (fun n => (n, analyzeNftRisk n txs))
  let riskScores := results.map (fun p => p.2.risk_score)
  let questionable := results.filter (fun p => p.2.is_high_risk)
  { average_risk_score :=
      if riskScores.isEmpty then 0
      else ((riskScores.sum : Int) : ℚ) / (riskScores.length : ℚ),
    questionable_nfts := questionable,
    is_verified := questionable.isEmpty,
    verification_timestamp := now.iso }

/-! ## `get_nft_data_by_owner` -/

/-- The owner report dictionary.  The early not-found return and the full
return build dictionaries with different key sets; a field that a path does
not emit is `none`. -/
structure OwnerReport where
  owner_address : Option String
  nfts : List FormattedNft
  token_balances : Option (List TokenBalance)
  account_activities : Option Activities
  is_scammer : Option Bool
  verification_results : Option VerificationResult
  is_verified : Option Bool
  reason : Option String

/-- Formatting of one token-typed resource into a frontend NFT record. -/
def formatNft (r : Resource) : FormattedNft :=
  let raw := r.data.getD emptyRawData
  { name := raw.name.getD "Unnamed NFT",
    id := raw.token_id.getD (raw.id.getD "N/A"),
    collection := raw.collection_name.getD (raw.collection.getD "N/A"),
    creator := raw.creator_address.getD (raw.creator.getD "N/A"),
    metadata := raw,
    resource_type := r.type,
    uri := raw.uri,
    description := raw.description }

/-- Key-presence view of a formatted NFT, as `_verify_nft_metadata` probes
it: `name`, `id` and `metadata` keys always exist; inside the metadata, the
raw `uri`/`description` keys may or may not. -/
def formattedToDict (f : FormattedNft) : NftDict :=
  { hasName := true, hasId := true,
    metadata := some { hasUri := f.metadata.uri.isSome,
                       hasDescription := f.metadata.description.isSome } }

/-- Whether a resource is picked up by the token-balance scan. -/
def isBalanceResource (r : Resource) : Bool :=
  (strContains (pyLower (r.type.getD "")) "coin" ||
   strContains (pyLower (r.type.getD "")) "token") &&
  ((r.data.getD emptyRawData).value.isSome || (r.data.getD emptyRawData).amount.isSome)

/-- Formatting of one balance-carrying resource. -/
def formatBalance (r : Resource) : TokenBalance :=
  let raw := r.data.getD emptyRawData
  { name := extractTokenName (r.type.getD ""),
    amount := raw.value.getD (raw.amount.getD 0),
    resource_type := r.type.getD "" }

/-- `get_nft_data_by_owner`, parameterised by the gateway results
(`resources`, `txHistory`), the scammer registry and the clock.  A falsy
resource fetch (Absent or empty) takes the early not-found return, which
omits `is_scammer`; otherwise NFTs and balances are formatted, the
activities parse runs (raising when the history is Absent), NFTs are
verified, and the full report carries `is_scammer`. -/
def getNftDataByOwner (owner : String) (resources : Option (List Resource))
    (txHistory : Option (List Tx)) (knownScammers : List String)
    (now : PyDateTime) : Except String OwnerReport :=
  match resources with
  | some (r0 :: rest) =>
    let rs := r0 :: rest
    let nfts := (rs.filter (fun r => strContains (r.type.getD "") "token")).map formatNft
    let balances := (rs.filter isBalanceResource).map formatBalance
    match parseAccountActivities txHistory with
    | .error e => .error e
    | .ok acts =>
      .ok { owner_address := some owner,
            nfts := nfts,
            token_balances := some balances,
            account_activities := some acts,
            is_scammer := some (knownScammers.contains owner),
            verification_results := some (verifyNfts (nfts.map formattedToDict) txHistory now),
            is_verified := none,
            reason := none }
  | _ =>
    .ok { owner_address := none, nfts := [], token_balances := none,
          account_activities := none, is_scammer := none,
          verification_results := none, is_verified := some false,
          reason := some "No resources found" }

end NFTV

open NFTV

/-! ## Helper lemmas -/

/-- The age check of collection scoring, when it does not raise, contributes
either nothing or exactly 25 points with the `NEW_CREATOR_ACCOUNT` tag. -/
theorem collectionAgeCheck_ok_cases (txs : Option (List Tx)) (now : PyDateTime)
    (p : Int × List String) (h : collectionAgeCheck txs now = .ok p) :
    p = (0, []) ∨ p = (25, ["NEW_CREATOR_ACCOUNT"]) := by
  unfold collectionAgeCheck at h
  rcases txs with _ | l
  · exact .inl (Except.ok.inj h).symm
  rcases l with _ | ⟨t, ts⟩
  · exact .inl (Except.ok.inj h).symm
  dsimp only at h
  rcases hts : (oldestTx t ts now).timestamp with _ | tsStr
  · rw [hts] at h; simp at h
  rw [hts] at h
  dsimp only at h
  rcases hfi : fromIso tsStr with _ | secs
  · rw [hfi] at h; simp at h
  rw [hfi] at h
  dsimp only at h
  by_cases hd : Int.fdiv (now.seconds - secs) 86400 < 30
  · rw [if_pos hd] at h
    exact .inr (Except.ok.inj h).symm
  · rw [if_neg hd] at h
    exact .inl (Except.ok.inj h).symm

/-- The supply and metadata checks never decrease the accumulated score. -/
theorem collectionChecksTail_score_lower (c : CollectionData) (now : PyDateTime)
    (p : Int × List String) :
    p.1 ≤ (collectionChecksTail c now p).risk_score := by
  unfold collectionChecksTail
  dsimp only
  split_ifs <;> omega

/-! ## Claim theorems -/

/-- C1: for an Absent (`None`) transaction history, `_parse_account_activities`
does not return the all-zero summary: iterating Python `None` raises
`TypeError` (its caller `get_nft_data_by_owner` passes the Optional fetch
result unguarded).  Only an empty (`[]`) history yields the all-zero/empty
summary. -/
theorem parse_account_activities_absent_history :
    parseAccountActivities none
      = .error "TypeError: NoneType object is not iterable"
    ∧ parseAccountActivities (some [])
      = .ok { nft_staking := false,
              token_swaps := { swap_count := 0, listing_count := 0 },
              nft_transfers := { deposit_count := 0, withdraw_count := 0 },
              property_modifications := 0,
              recent_transactions := [] } :=
  ⟨rfl, rfl⟩

/-- C4: there is a non-empty transaction history whose earliest-timestamp
transaction carries a malformed (non-ISO-8601) timestamp, on which collection
scoring raises an uncaught parse failure that propagates out of
`_verify_collection`. -/
theorem malformed_timestamp_escapes_collection_scoring :
    verifyCollection { supply := some 10, description := some "d", uri := some "u" }
        (some [{ type := some "user_transaction", timestamp := some "bad-timestamp",
                 success := some true, events := [] }])
        ⟨1700000000, "2023-11-14T22:13:20"⟩
      = .error "ValueError: Invalid isoformat string" :=
  rfl

/-- C5: `score_collection` on supply 0, null description and uri, and an
empty transaction history scores exactly 80 = 50 (zero supply) + 30
(incomplete metadata), with factors `ZERO_SUPPLY` and `INCOMPLETE_METADATA`,
no `NEW_CREATOR_ACCOUNT`, and a high-risk verdict. -/
theorem collection_zero_supply_null_metadata_scores_80 :
    verifyCollection { supply := some 0, description := none, uri := none }
        (some []) ⟨0, "t0"⟩
      = .ok { risk_score := 80,
              risk_factors := ["ZERO_SUPPLY", "INCOMPLETE_METADATA"],
              is_high_risk := true, is_verified := false,
              verification_timestamp := "t0" } :=
  rfl

/-- C6: `score_nft` on a mapping with `name` and `id` keys but no `metadata`
key and no transaction history yields risk 0, no factors and no high-risk
flag; the absence of a nested metadata map does not trigger
`INCOMPLETE_METADATA`. -/
theorem nft_without_metadata_key_scores_zero :
    analyzeNftRisk { hasName := true, hasId := true, metadata := none } none
      = { risk_score := 0, risk_factors := [], is_high_risk := false }
    ∧ analyzeNftRisk { hasName := true, hasId := true, metadata := none } (some [])
      = { risk_score := 0, risk_factors := [], is_high_risk := false } :=
  ⟨rfl, rfl⟩

/-- C9: `_extract_token_name` returns the last `::`-segment inside `<...>`
when the generic argument is present, else the third `::`-segment. -/
theorem extract_token_name_examples :
    extractTokenName "0x1::coin::CoinStore<0x1::aptos_coin::AptosCoin>" = "AptosCoin"
    ∧ extractTokenName "0x1::a::B" = "B" :=
  ⟨rfl, rfl⟩

/-- C8: `aggregate_nft_verification` on an empty NFT list yields average risk
0, no questionable NFTs, and a verified verdict; in general the verdict holds
iff the questionable list is empty. -/
theorem aggregate_empty_and_verified_iff (txs : Option (List Tx)) (now : PyDateTime) :
    (verifyNfts [] txs now).average_risk_score = 0
    ∧ (verifyNfts [] txs now).questionable_nfts = []
    ∧ (verifyNfts [] txs now).is_verified = true
    ∧ ∀ (nfts : List NftDict) (txs2 : Option (List Tx)) (now2 : PyDateTime),
        ((verifyNfts nfts txs2 now2).is_verified = true
          ↔ (verifyNfts nfts txs2 now2).questionable_nfts = []) := by
  refine ⟨rfl, rfl, rfl, fun nfts txs2 now2 => ?_⟩
  simp only [verifyNfts]
  exact List.isEmpty_iff

/-- C3: on a present (non-empty) transaction history, single-NFT scoring
counts the transactions whose lower-cased type contains `"transfer"`,
uncorrelated with the NFT argument; exactly when that count `c` exceeds 3 it
adds `20 * (c - 3)` to the score and appends `HIGH_TRANSFER_VELOCITY`; in
particular 5 transfer-typed transactions add 40. -/
theorem transfer_velocity_scoring (nft : NftDict) (t : Tx) (ts : List Tx) :
    ((analyzeNftRisk nft (some (t :: ts))).risk_score
      = (analyzeNftRisk nft none).risk_score
        + (if 3 < (t :: ts).countP (fun tx => isNftTransfer tx nft)
           then 20 * (((t :: ts).countP (fun tx => isNftTransfer tx nft) : Int) - 3)
           else 0))
    ∧ ("HIGH_TRANSFER_VELOCITY" ∈ (analyzeNftRisk nft (some (t :: ts))).risk_factors
        ↔ 3 < (t :: ts).countP (fun tx => isNftTransfer tx nft))
    ∧ (∀ (tx : Tx) (other : NftDict),
        isNftTransfer tx other = strContains (pyLower (tx.type.getD "")) "transfer")
    ∧ ((analyzeNftRisk { hasName := true, hasId := true, metadata := some ⟨true, true⟩ }
          (some (List.replicate 5
            { type := some "0x3::token::transfer", timestamp := none,
              success := none, events := [] }))).risk_score = 40
       ∧ "HIGH_TRANSFER_VELOCITY" ∈
          (analyzeNftRisk { hasName := true, hasId := true, metadata := some ⟨true, true⟩ }
            (some (List.replicate 5
              { type := some "0x3::token::transfer", timestamp := none,
                success := none, events := [] }))).risk_factors) := by
  refine ⟨?_, ?_, fun tx other => rfl, by decide⟩
  · by_cases h : 3 < (t :: ts).countP (fun tx => isNftTransfer tx nft) <;>
      simp [analyzeNftRisk, h]
  · by_cases h : 3 < (t :: ts).countP (fun tx => isNftTransfer tx nft) <;>
      by_cases hm : verifyNftMetadata nft <;>
        simp [analyzeNftRisk, h, hm]

/-- C2 (counterexample): a registry member whose resource fetch is Absent or
an empty list receives the early report, which omits the `is_scammer` key
entirely (`none`), so the claim "is_scammer is true regardless ... including
when the resource fetch returns Absent or an empty list" fails. -/
theorem is_scammer_absent_resources_counterexample :
    ("0xbad" ∈ ["0xbad"])
    ∧ (getNftDataByOwner "0xbad" none (some []) ["0xbad"] ⟨0, "t0"⟩).map
        OwnerReport.is_scammer = .ok none
    ∧ (getNftDataByOwner "0xbad" (some []) (some []) ["0xbad"] ⟨0, "t0"⟩).map
        OwnerReport.is_scammer = .ok none :=
  ⟨List.mem_singleton.mpr rfl, rfl, rfl⟩

/-- C2 (amended): when the resource fetch returns a non-empty list and the
transaction fetch returns a list, the full owner report of a registry member
carries `is_scammer = true`, whatever the resources contain. -/
theorem is_scammer_true_in_full_report (owner : String) (scammers : List String)
    (r0 : Resource) (rest : List Resource) (txs : List Tx) (now : PyDateTime)
    (h : owner ∈ scammers) :
    (getNftDataByOwner owner (some (r0 :: rest)) (some txs) scammers now).map
      OwnerReport.is_scammer = .ok (some true) := by
  have hc : scammers.contains owner = true := List.elem_iff.mpr h
  show Except.ok (some (scammers.contains owner)) = Except.ok (some true)
  rw [hc]

/-- Witness for the amended C2 at a concrete scammer and resource list. -/
theorem is_scammer_true_in_full_report_witness :
    ("0xabc" ∈ ["0xabc", "0xdef"])
    ∧ (getNftDataByOwner "0xabc"
          (some [{ type := some "0x3::token::TokenStore", data := none }])
          (some []) ["0xabc", "0xdef"] ⟨0, "t0"⟩).map
        OwnerReport.is_scammer = .ok (some true) :=
  ⟨by decide,
   is_scammer_true_in_full_report "0xabc" ["0xabc", "0xdef"]
     { type := some "0x3::token::TokenStore", data := none } [] [] ⟨0, "t0"⟩
     (by decide)⟩

/-- Decomposition of a successful collection scoring run into its age check
and the pure tail of supply/metadata checks. -/
theorem verifyCollection_ok_decomp (c : CollectionData) (txs : Option (List Tx))
    (now : PyDateTime) (r : CollectionRisk) (h : verifyCollection c txs now = .ok r) :
    ∃ p, collectionAgeCheck txs now = .ok p ∧ collectionChecksTail c now p = r := by
  unfold verifyCollection at h
  cases hac : collectionAgeCheck txs now with
  | error e => rw [hac] at h; simp [Except.map] at h
  | ok p => rw [hac] at h; exact ⟨p, rfl, Except.ok.inj h⟩

/-- The supply checks are mutually exclusive: starting from any age-check
outcome, `ZERO_SUPPLY` and `VERY_LOW_SUPPLY` are never both emitted. -/
theorem collection_factors_not_both (c : CollectionData) (now : PyDateTime)
    (p : Int × List String) (hp : p = (0, []) ∨ p = (25, ["NEW_CREATOR_ACCOUNT"])) :
    ¬ ("ZERO_SUPPLY" ∈ (collectionChecksTail c now p).risk_factors
       ∧ "VERY_LOW_SUPPLY" ∈ (collectionChecksTail c now p).risk_factors) := by
  unfold collectionChecksTail
  dsimp only
  rcases hp with h1 | h1 <;> subst h1 <;> split_ifs <;> simp

/-- For a collection record lacking a `supply` key, the tail checks emit
`ZERO_SUPPLY` and 50 points, and no `VERY_LOW_SUPPLY`. -/
theorem collection_tail_supply_none (c : CollectionData) (now : PyDateTime)
    (p : Int × List String) (hs : c.supply = none)
    (hp : p = (0, []) ∨ p = (25, ["NEW_CREATOR_ACCOUNT"])) :
    "ZERO_SUPPLY" ∈ (collectionChecksTail c now p).risk_factors
    ∧ "VERY_LOW_SUPPLY" ∉ (collectionChecksTail c now p).risk_factors
    ∧ 50 ≤ (collectionChecksTail c now p).risk_score := by
  unfold collectionChecksTail
  rw [hs]
  dsimp only
  rcases hp with h1 | h1 <;> subst h1 <;> split_ifs <;> simp_all

/-- C7: the risk score returned by single-NFT scoring is never negative, and
whenever collection scoring returns (rather than raising), its risk score is
never negative either. -/
theorem risk_score_nonneg (nft : NftDict) (txs : Option (List Tx))
    (c : CollectionData) (ctxs : Option (List Tx)) (now : PyDateTime)
    (r : CollectionRisk) (h : verifyCollection c ctxs now = .ok r) :
    0 ≤ (analyzeNftRisk nft txs).risk_score ∧ 0 ≤ r.risk_score := by
  constructor
  · unfold analyzeNftRisk
    rcases txs with _ | l
    · dsimp only; split_ifs <;> omega
    rcases l with _ | ⟨t, ts⟩
    · dsimp only; split_ifs <;> omega
    · dsimp only; split_ifs <;> dsimp only <;> omega
  · obtain ⟨p, hac, hr⟩ := verifyCollection_ok_decomp c ctxs now r h
    have hp1 : (0 : Int) ≤ p.1 := by
      rcases collectionAgeCheck_ok_cases ctxs now p hac with h1 | h1 <;> simp [h1]
    calc (0 : Int) ≤ p.1 := hp1
      _ ≤ (collectionChecksTail c now p).risk_score :=
        collectionChecksTail_score_lower c now p
      _ = r.risk_score := by rw [hr]

/-- Witness for C7 at a concrete NFT and a concrete successful collection run. -/
theorem risk_score_nonneg_witness :
    0 ≤ (analyzeNftRisk { hasName := true, hasId := true, metadata := none } none).risk_score
    ∧ 0 ≤ (CollectionRisk.mk 50 ["ZERO_SUPPLY"] false true "t0").risk_score :=
  risk_score_nonneg { hasName := true, hasId := true, metadata := none } none
    { supply := none, description := some "d", uri := some "u" } none ⟨0, "t0"⟩
    (CollectionRisk.mk 50 ["ZERO_SUPPLY"] false true "t0") (by rfl)

/-- C10: a collection mapping with no `supply` key is scored as if its supply
were zero: the run equals the run with `supply = 0`, it earns `ZERO_SUPPLY`
and at least 50 points, never `VERY_LOW_SUPPLY`; and in no successful run do
`ZERO_SUPPLY` and `VERY_LOW_SUPPLY` both appear. -/
theorem missing_supply_treated_as_zero (c : CollectionData) (ctxs : Option (List Tx))
    (now : PyDateTime) (r : CollectionRisk)
    (h : verifyCollection c ctxs now = .ok r) (hs : c.supply = none) :
    verifyCollection { c with supply := some 0 } ctxs now = .ok r
    ∧ "ZERO_SUPPLY" ∈ r.risk_factors
    ∧ "VERY_LOW_SUPPLY" ∉ r.risk_factors
    ∧ 50 ≤ r.risk_score
    ∧ ∀ (c2 : CollectionData) (txs2 : Option (List Tx)) (now2 : PyDateTime)
        (r2 : CollectionRisk), verifyCollection c2 txs2 now2 = .ok r2 →
        ¬ ("ZERO_SUPPLY" ∈ r2.risk_factors ∧ "VERY_LOW_SUPPLY" ∈ r2.risk_factors) := by
  obtain ⟨p, hac, hr⟩ := verifyCollection_ok_decomp c ctxs now r h
  have hp := collectionAgeCheck_ok_cases ctxs now p hac
  have hmain := collection_tail_supply_none c now p hs hp
  refine ⟨?_, ?_, ?_, ?_, ?_⟩
  · show (collectionAgeCheck ctxs now).map
      (collectionChecksTail { c with supply := some 0 } now) = .ok r
    have htail : collectionChecksTail { c with supply := some 0 } now
        = collectionChecksTail c now := by
      funext q
      simp [collectionChecksTail, hs]
    rw [htail]
    exact h
  · rw [← hr]; exact hmain.1
  · rw [← hr]; exact hmain.2.1
  · rw [← hr]; exact hmain.2.2
  · intro c2 txs2 now2 r2 h2
    obtain ⟨p2, hac2, hr2⟩ := verifyCollection_ok_decomp c2 txs2 now2 r2 h2
    rw [← hr2]
    exact collection_factors_not_both c2 now2 p2
      (collectionAgeCheck_ok_cases txs2 now2 p2 hac2)

/-- Witness for C10 at a concrete supply-less collection. -/
theorem missing_supply_treated_as_zero_witness :
    verifyCollection { supply := some 0, description := some "d", uri := some "u" }
        none ⟨0, "t0"⟩ = .ok (CollectionRisk.mk 50 ["ZERO_SUPPLY"] false true "t0")
    ∧ "ZERO_SUPPLY" ∈ (CollectionRisk.mk 50 ["ZERO_SUPPLY"] false true "t0").risk_factors
    ∧ "VERY_LOW_SUPPLY" ∉ (CollectionRisk.mk 50 ["ZERO_SUPPLY"] false true "t0").risk_factors
    ∧ 50 ≤ (CollectionRisk.mk 50 ["ZERO_SUPPLY"] false true "t0").risk_score
    ∧ ∀ (c2 : CollectionData) (txs2 : Option (List Tx)) (now2 : PyDateTime)
        (r2 : CollectionRisk), verifyCollection c2 txs2 now2 = .ok r2 →
        ¬ ("ZERO_SUPPLY" ∈ r2.risk_factors ∧ "VERY_LOW_SUPPLY" ∈ r2.risk_factors) :=
  missing_supply_treated_as_zero
    { supply := none, description := some "d", uri := some "u" } none ⟨0, "t0"⟩
    (CollectionRisk.mk 50 ["ZERO_SUPPLY"] false true "t0") (by rfl) (by rfl)
